/-
  Verification of the FNFTpy wrapper layer.

  The Python wrappers (fnft_nsep_wrapper.py, fnft_nsev_slow_wrapper.py,
  fnft_nsev_inverse_wrapper.py) marshal caller data into buffers, call an
  external C library function, and assemble a result dictionary from the
  buffers.  We embed the wrappers shallowly: complex samples are pairs of
  rationals, numpy arrays are lists, ctypes NULL pointers are `Option.none`,
  a Python exception is `Except.error`, and the external C engine is a
  function parameter supplied by the caller of the model.
-/
import Mathlib

/-- A complex sample (real part, imaginary part); values are only marshalled,
never computed on, so rationals suffice. -/
abbrev CC : Type := ℚ × ℚ

def czero : CC := (0, 0)

/-- Complex addition, used for the `q[:] + 0.0j` marshalling step. -/
def cadd (a b : CC) : CC := (a.1 + b.1, a.2 + b.2)

/-- numpy slice assignment `dst[:] = src`: succeeds when the lengths match,
broadcasts a single element, and otherwise raises. -/
def np_copyto (dst src : List CC) : Except String (List CC) :=
  if src.length = dst.length then Except.ok src
  else if src.length = 1 then Except.ok (List.replicate dst.length src.head!)
  else Except.error "could not broadcast input array"

/-- `np.min` on a vector of reals: raises on an empty array. -/
def np_min (l : List ℚ) : Except String ℚ :=
  match l with
  | [] => Except.error "zero-size array to reduction operation"
  | x :: xs => Except.ok (xs.foldl min x)

/-- `np.max` on a vector of reals: raises on an empty array. -/
def np_max (l : List ℚ) : Except String ℚ :=
  match l with
  | [] => Except.error "zero-size array to reduction operation"
  | x :: xs => Except.ok (xs.foldl max x)

/-- Python slice `buf[a:b]` where `buf` is either a numpy array
(`some` contents; out-of-range indices clamp) or a ctypes NULL pointer
(`none`; a non-empty slice dereferences NULL and raises ValueError,
an empty slice reads nothing and yields `[]`). -/
def opt_slice (buf : Option (List CC)) (a b : ℕ) : Except String (List CC) :=
  match buf with
  | some l => Except.ok ((l.take b).drop a)
  | none => if a < b then Except.error "NULL pointer access" else Except.ok []

/-- Modelled from the spec: `check_return_code` lives in FNFTpy/auxiliary.py,
which is not among the given sources.  Per the spec's error-propagation
policy, a non-success status from the library must prevent any output array
from being treated as valid by the caller, so a non-zero return value is
signalled as an error. -/
def check_return_code (rv : Int) : Except String Unit :=
  if rv = 0 then Except.ok () else Except.error "FNFT returned a non-zero error code"

/-- Modelled from the spec: the options record for fnft_nsev_slow
(typesdef.py is not among the given sources).  Fields follow the option
names enumerated in the wrapper's documentation; the wrapper itself reads
only `discspec_type` and `contspec_type` and passes the whole record to the
library. -/
structure NsevSlowOptionsStruct where
  bound_state_filtering : Int
  bound_state_localization : Int
  niter : Int
  discspec_type : Int
  contspec_type : Int
  discretization : Int
  richardson_extrapolation_flag : Int
deriving DecidableEq

/-- Modelled from the spec: the options record for fnft_nsep (typesdef.py is
not among the given sources); the wrapper never reads its fields, it only
forwards the record to the library. -/
structure NsepOptionsStruct where
  localization : Int
  filtering : Int
  bounding_box : (ℚ × ℚ) × (ℚ × ℚ)
  max_evals : Int
  discretization : Int
  normalization_flag : Int
deriving DecidableEq

/-- Modelled from the spec: the options record for fnft_nsev_inverse
(typesdef.py is not among the given sources); the wrapper never reads its
fields, it only forwards the record to the library. -/
structure NsevInverseOptionsStruct where
  discretization : Int
  contspec_type : Int
  contspec_inversion_method : Int
  discspec_type : Int
  max_iter : Int
  oversampling_factor : Int
deriving DecidableEq

/-- Modelled from the spec: `get_nsev_slow_options` lives in
options_handling.py, which is not among the given sources.  Per the spec,
every option field has a stated default and absence (`none`) means "use
default"; the defaults are those documented for nsev_slow (bsf=2, bsl=2,
niter=10, dst=0, cst=0, dis=11, ref=0). -/
def get_nsev_slow_options (bsf bsl niter dst cst dis ref : Option Int) :
    NsevSlowOptionsStruct :=
  { bound_state_filtering := bsf.getD 2
    bound_state_localization := bsl.getD 2
    niter := niter.getD 10
    discspec_type := dst.getD 0
    contspec_type := cst.getD 0
    discretization := dis.getD 11
    richardson_extrapolation_flag := ref.getD 0 }

/-- Modelled from the spec: `get_nsev_inverse_options` lives in
options_handling.py, which is not among the given sources.  Defaults follow
the documentation of nsev_inverse (cst=0, csim=0, dst=0, max_iter=100,
osf=8; dis defaults to 1 when absent). -/
def get_nsev_inverse_options (dis cst csim dst max_iter osf : Option Int) :
    NsevInverseOptionsStruct :=
  { discretization := dis.getD 1
    contspec_type := cst.getD 0
    contspec_inversion_method := csim.getD 0
    discspec_type := dst.getD 0
    max_iter := max_iter.getD 100
    oversampling_factor := osf.getD 8 }

/-- What the external `fnft_nsep` call leaves behind: the return value, the
values written through `K_ptr` and `M_ptr`, and the final contents of the
three buffers it was handed. -/
structure NsepEngineOut where
  rv : Int
  K_ret : ℕ
  M_ret : ℕ
  q_post : List CC
  main_post : List CC
  aux_post : List CC

/-- The external `fnft_nsep` function, as seen through ctypes: it receives
D, the q buffer contents, (T1,T2), K, the main-spectrum buffer, M, the
auxiliary-spectrum buffer, kappa and the options record. -/
abbrev NsepEngine : Type :=
  ℕ → List CC → (ℚ × ℚ) → ℕ → List CC → ℕ → List CC → Int →
    NsepOptionsStruct → NsepEngineOut

/-- Result dictionary of nsep_wrapper. -/
structure NsepResult where
  return_value : Int
  K : ℕ
  main : List CC
  M : ℕ
  aux : List CC
  options : NsepOptionsStruct
deriving DecidableEq

/-- The fresh q buffer with the caller's samples copied in
(`nsep_q = np.zeros(D); nsep_q[:] = q[:] + 0.0j`); shared by nsep_wrapper
and nsev_slow_wrapper, which marshal q identically. -/
def marshal_q (D : ℕ) (q : List CC) : Except String (List CC) :=
  np_copyto (List.replicate D czero) (q.map (fun z => cadd z czero))

/-- fnft_nsep_wrapper.py, nsep_wrapper: allocate a main-spectrum buffer of
4*D and an auxiliary buffer of 2*D, call the library, and return the first
K_ret and M_ret entries of those buffers together with the raw return
value. -/
def nsep_wrapper (engine : NsepEngine) (D : ℕ) (q : List CC) (T1 T2 : ℚ)
    (kappa : Int) (options : NsepOptionsStruct) : Except String NsepResult := do
  let nsep_q ← marshal_q D q
  let nsep_K := 4 * D
  let nsep_main_spec := List.replicate nsep_K czero
  let nsep_M := 2 * D
  let nsep_aux_spec := List.replicate nsep_M czero
  let out := engine D nsep_q (T1, T2) nsep_K nsep_main_spec nsep_M
    nsep_aux_spec kappa options
  Except.ok
    { return_value := out.rv
      K := out.K_ret
      main := (out.main_post.take out.K_ret).drop 0
      M := out.M_ret
      aux := (out.aux_post.take out.M_ret).drop 0
      options := options }

/-- What the external `fnft_nsev_slow` call leaves behind: return value, the
value written through `K_ptr`, and the final contents of the q, bound-state,
discrete-spectrum and continuous-spectrum buffers it was handed. -/
structure NsevSlowEngineOut where
  rv : Int
  K_ret : ℕ
  q_post : List CC
  bs_post : List CC
  ds_post : List CC
  cont_post : List CC

/-- The external `fnft_nsev_slow` function, as seen through ctypes: it
receives D, the q buffer, (T1,T2), M, the continuous-spectrum buffer (or
NULL), (Xi1,Xi2), K, the bound-state buffer (or NULL), the
discrete-spectrum buffer (or NULL), kappa and the options record. -/
abbrev NsevSlowEngine : Type :=
  ℕ → List CC → (ℚ × ℚ) → ℕ → Option (List CC) → (ℚ × ℚ) → ℕ →
    Option (List CC) → Option (List CC) → Int → NsevSlowOptionsStruct →
    NsevSlowEngineOut

/-- Result dictionary of nsev_slow_wrapper; a key is present in the Python
dict exactly when the corresponding field is `some`. -/
structure NsevSlowResult where
  return_value : Int
  bound_states_num : ℕ
  bound_states : List CC
  disc_norm : Option (List CC)
  disc_res : Option (List CC)
  cont_ref : Option (List CC)
  cont_a : Option (List CC)
  cont_b : Option (List CC)
  options : NsevSlowOptionsStruct
deriving DecidableEq

/-- fnft_nsev_slow_wrapper.py lines 192-207: allocation of the
discrete-spectrum and bound-state buffers.  discspec_type 0 or 1 allocates
K entries each, 2 allocates 2*K coefficient entries, and 3 or any other
value passes NULL for both (`none`).  Returns (discspec, boundstates). -/
def nsev_slow_disc_bufs (options : NsevSlowOptionsStruct) (K : ℕ) :
    Option (List CC × List CC) :=
  if options.discspec_type = 0 ∨ options.discspec_type = 1 then
    some (List.replicate K czero, List.replicate K czero)
  else if options.discspec_type = 2 then
    some (List.replicate (2 * K) czero, List.replicate K czero)
  else
    none

/-- fnft_nsev_slow_wrapper.py lines 211-225: allocation of the
continuous-spectrum buffer.  contspec_type 0 allocates M entries, 1
allocates 2*M, 2 allocates 3*M, and 3 or any other value passes NULL. -/
def nsev_slow_cont_buf (options : NsevSlowOptionsStruct) (M : ℕ) :
    Option (List CC) :=
  if options.contspec_type = 0 then some (List.replicate M czero)
  else if options.contspec_type = 1 then some (List.replicate (2 * M) czero)
  else if options.contspec_type = 2 then some (List.replicate (3 * M) czero)
  else none

/-- fnft_nsev_slow_wrapper.py lines 259-273: the discrete-spectrum entries
of the result dictionary, sliced from the post-call coefficient buffer
(`ds_post` when a buffer was passed, NULL otherwise). -/
def nsev_slow_disc_out (options : NsevSlowOptionsStruct)
    (ds : Option (List CC)) (K_new : ℕ) (r : NsevSlowResult) :
    Except String NsevSlowResult :=
  if options.discspec_type = 0 then do
    let v ← opt_slice ds 0 K_new
    Except.ok { r with disc_norm := some v }
  else if options.discspec_type = 1 then do
    let v ← opt_slice ds 0 K_new
    Except.ok { r with disc_res := some v }
  else if options.discspec_type = 2 then do
    let v ← opt_slice ds 0 K_new
    let w ← opt_slice ds K_new (2 * K_new)
    Except.ok { r with disc_norm := some v, disc_res := some w }
  else
    Except.ok r

/-- fnft_nsev_slow_wrapper.py lines 277-291: the continuous-spectrum entries
of the result dictionary, sliced from the post-call buffer. -/
def nsev_slow_cont_out (options : NsevSlowOptionsStruct)
    (cont : Option (List CC)) (M : ℕ) (r : NsevSlowResult) :
    Except String NsevSlowResult :=
  if options.contspec_type = 0 then do
    let v ← opt_slice cont 0 M
    Except.ok { r with cont_ref := some v }
  else if options.contspec_type = 1 then do
    let v ← opt_slice cont 0 M
    let w ← opt_slice cont M (2 * M)
    Except.ok { r with cont_a := some v, cont_b := some w }
  else if options.contspec_type = 2 then do
    let v ← opt_slice cont 0 M
    let w ← opt_slice cont M (2 * M)
    let u ← opt_slice cont (2 * M) (3 * M)
    Except.ok { r with cont_ref := some v, cont_a := some w, cont_b := some u }
  else
    Except.ok r

/-- fnft_nsev_slow_wrapper.py, nsev_slow_wrapper: copy q into a fresh
buffer, allocate (or NULL) the spectrum buffers according to the options,
call the library, check the return code, and slice the result dictionary
out of the post-call buffers. -/
def nsev_slow_wrapper (engine : NsevSlowEngine) (D : ℕ) (q : List CC)
    (T1 T2 Xi1 Xi2 : ℚ) (M K : ℕ) (kappa : Int)
    (options : NsevSlowOptionsStruct) : Except String NsevSlowResult := do
  let nsev_slow_q ← marshal_q D q
  let dbufs := nsev_slow_disc_bufs options K
  let nsev_slow_discspec := dbufs.map Prod.fst
  let nsev_slow_boundstates := dbufs.map Prod.snd
  let nsev_slow_cont := nsev_slow_cont_buf options M
  let out := engine D nsev_slow_q (T1, T2) M nsev_slow_cont (Xi1, Xi2) K
    nsev_slow_boundstates nsev_slow_discspec kappa options
  check_return_code out.rv
  let K_new := out.K_ret
  let bs_buf : Option (List CC) := nsev_slow_boundstates.map (fun _ => out.bs_post)
  let ds_buf : Option (List CC) := nsev_slow_discspec.map (fun _ => out.ds_post)
  let cont_buf : Option (List CC) := nsev_slow_cont.map (fun _ => out.cont_post)
  let bound_states ← opt_slice bs_buf 0 K_new
  let r0 : NsevSlowResult :=
    { return_value := out.rv
      bound_states_num := K_new
      bound_states := bound_states
      disc_norm := none
      disc_res := none
      cont_ref := none
      cont_a := none
      cont_b := none
      options := options }
  let r1 ← nsev_slow_disc_out options ds_buf K_new r0
  nsev_slow_cont_out options cont_buf M r1

/-- fnft_nsev_slow_wrapper.py, nsev_slow: the convenience front end takes
D from len(q), T1 and T2 from min(tvec) and max(tvec), builds the options
record from the optional arguments, and delegates to nsev_slow_wrapper. -/
def nsev_slow (engine : NsevSlowEngine) (q : List CC) (tvec : List ℚ)
    (Xi1 Xi2 : ℚ) (M K : ℕ) (kappa : Int)
    (bsf bsl niter dst cst dis ref : Option Int) :
    Except String NsevSlowResult := do
  let D := q.length
  let T1 ← np_min tvec
  let T2 ← np_max tvec
  let options := get_nsev_slow_options bsf bsl niter dst cst dis ref
  nsev_slow_wrapper engine D q T1 T2 Xi1 Xi2 M K kappa options

/-- What the external `fnft_nsev_inverse` call leaves behind: return value
and the final contents of the buffers it was handed (contspec, bound
states, coefficients, and the output field q). -/
structure NsevInverseEngineOut where
  rv : Int
  contspec_post : List CC
  bs_post : List CC
  ds_post : List CC
  q_post : List CC

/-- The external `fnft_nsev_inverse` function, as seen through ctypes: it
receives M, the contspec buffer, (Xi1,Xi2), K, the bound-state buffer (or
NULL), the coefficient buffer (or NULL), D, the output q buffer, (T1,T2),
kappa and the options record. -/
abbrev NsevInverseEngine : Type :=
  ℕ → List CC → (ℚ × ℚ) → ℕ → Option (List CC) → Option (List CC) → ℕ →
    List CC → (ℚ × ℚ) → Int → NsevInverseOptionsStruct → NsevInverseEngineOut

/-- Result dictionary of nsev_inverse_wrapper. -/
structure NsevInverseResult where
  return_value : Int
  q : List CC
  options : NsevInverseOptionsStruct
deriving DecidableEq

/-- fnft_nsev_inverse_wrapper.py lines 169-182: when K > 0 the bound states
and coefficients are copied into fresh K-element buffers (slicing `None`
raises a TypeError), otherwise NULL pointers are passed for both.  Returns
(boundstates, discspec). -/
def nsev_inverse_bs_bufs (K : ℕ) (bound_states : Option (List CC))
    (normconst_or_residues : Option (List CC)) :
    Except String (Option (List CC × List CC)) :=
  if 0 < K then
    match bound_states, normconst_or_residues with
    | some bs, some nc => do
      let b ← np_copyto (List.replicate K czero) bs
      let n ← np_copyto (List.replicate K czero) nc
      Except.ok (some (b, n))
    | _, _ => Except.error "NoneType object is not subscriptable"
  else
    Except.ok none

/-- fnft_nsev_inverse_wrapper.py, nsev_inverse_wrapper: copy contspec into a
fresh buffer, marshal the bound-state data (NULL when K = 0), allocate the
zero-filled output buffer of D samples, call the library, check the return
code, and return the post-call output buffer. -/
def nsev_inverse_wrapper (engine : NsevInverseEngine) (M : ℕ)
    (contspec : List CC) (Xi1 Xi2 : ℚ) (K : ℕ)
    (bound_states normconst_or_residues : Option (List CC)) (D : ℕ)
    (T1 T2 : ℚ) (kappa : Int) (options : NsevInverseOptionsStruct) :
    Except String NsevInverseResult := do
  let nsev_contspec ← np_copyto (List.replicate M czero) contspec
  let bufs ← nsev_inverse_bs_bufs K bound_states normconst_or_residues
  let nsev_boundstates := bufs.map Prod.fst
  let nsev_discspec := bufs.map Prod.snd
  let nsev_q := List.replicate D czero
  let out := engine M nsev_contspec (Xi1, Xi2) K nsev_boundstates
    nsev_discspec D nsev_q (T1, T2) kappa options
  check_return_code out.rv
  Except.ok
    { return_value := out.rv
      q := out.q_post
      options := options }

/-- What the external `fnft_nsev_inverse_XI` call leaves behind: return
value and the final contents of the two-element Xi buffer. -/
structure NsevInverseXiEngineOut where
  rv : Int
  xi_post : ℚ × ℚ

/-- The external `fnft_nsev_inverse_XI` function: it receives D, (T1,T2),
M, the Xi buffer contents and the discretization id. -/
abbrev NsevInverseXiEngine : Type :=
  ℕ → (ℚ × ℚ) → ℕ → (ℚ × ℚ) → Int → NsevInverseXiEngineOut

/-- fnft_nsev_inverse_wrapper.py, nsev_inverse_xi_wrapper: pass a
zero-initialised two-element Xi buffer to fnft_nsev_inverse_XI and return
the raw return value together with the post-call buffer contents. -/
def nsev_inverse_xi_wrapper (xi_engine : NsevInverseXiEngine) (D : ℕ)
    (T1 T2 : ℚ) (M : ℕ) (dis : Int) : Int × (ℚ × ℚ) :=
  let out := xi_engine D (T1, T2) M (0, 0) dis
  (out.rv, out.xi_post)

/-- fnft_nsev_inverse_wrapper.py, nsev_inverse: the convenience front end
takes M from len(contspec), D from len(tvec), T1 and T2 from min(tvec) and
max(tvec), derives the frequency window through nsev_inverse_xi_wrapper
(raising when its return value is non-zero), and delegates to
nsev_inverse_wrapper with K = 0 and no bound-state data. -/
def nsev_inverse (xi_engine : NsevInverseXiEngine)
    (engine : NsevInverseEngine) (contspec : List CC) (tvec : List ℚ)
    (kappa : Int) (dis : Int) (cst csim dst max_iter osf : Option Int) :
    Except String NsevInverseResult := do
  let M := contspec.length
  let D := tvec.length
  let T1 ← np_min tvec
  let T2 ← np_max tvec
  let K := 0
  let rx := nsev_inverse_xi_wrapper xi_engine D T1 T2 M dis
  if rx.1 ≠ 0 then
    Except.error "nsev_inverse_xi calculation failed"
  else do
    let options := get_nsev_inverse_options (some dis) cst csim dst max_iter osf
    nsev_inverse_wrapper engine M contspec rx.2.1 rx.2.2 K none none D T1 T2
      kappa options

/-
  Memory-level model for the marshalling claims.  Caller-visible numpy
  arrays live in a store; a reference is an index into it.  `np.zeros`
  allocates a fresh cell at the end of the store, and the external C call
  overwrites exactly the cells whose references were passed to it.  This
  makes "the wrapper never writes back into the caller's arrays" a
  statement about the final store.
-/

abbrev Store : Type := List (List CC)

def stAlloc (st : Store) (v : List CC) : Store × ℕ := (st ++ [v], st.length)

def stRead (st : Store) (r : ℕ) : List CC := st.getD r []

def stWrite (st : Store) (r : ℕ) (v : List CC) : Store := st.set r v

def stWriteOpt (st : Store) (r : Option ℕ) (v : List CC) : Store :=
  match r with
  | some r => stWrite st r v
  | none => st

/-- fnft_nsep_wrapper.py, nsep_wrapper at the memory level: the caller's q
array is the store cell `qRef`; the wrapper allocates a fresh q buffer,
copies the samples into it, allocates the two spectrum buffers, and lets
the engine rewrite the three buffers it was passed.  Only the store is of
interest here: the subsequent result assembly performs no array writes. -/
def nsep_wrapper_st (engine : NsepEngine) (st0 : Store) (D : ℕ) (qRef : ℕ)
    (T1 T2 : ℚ) (kappa : Int) (options : NsepOptionsStruct) : Store :=
  let a1 := stAlloc st0 (List.replicate D czero)
  match np_copyto (stRead a1.1 a1.2) ((stRead a1.1 qRef).map (fun z => cadd z czero)) with
  | Except.error _ => a1.1
  | Except.ok qc =>
    let st2 := stWrite a1.1 a1.2 qc
    let a3 := stAlloc st2 (List.replicate (4 * D) czero)
    let a4 := stAlloc a3.1 (List.replicate (2 * D) czero)
    let out := engine D (stRead a4.1 a1.2) (T1, T2) (4 * D)
      (stRead a4.1 a3.2) (2 * D) (stRead a4.1 a4.2) kappa options
    stWrite (stWrite (stWrite a4.1 a1.2 out.q_post) a3.2 out.main_post)
      a4.2 out.aux_post

/-- fnft_nsev_slow_wrapper.py, nsev_slow_wrapper at the memory level: the
caller's q array is the store cell `qRef`; the wrapper allocates a fresh q
buffer and copies into it, allocates the bound-state, coefficient and
continuous-spectrum buffers demanded by the options (NULL references when
skipped), and lets the engine rewrite the buffers it was passed. -/
def nsev_slow_wrapper_st (engine : NsevSlowEngine) (st0 : Store) (D : ℕ)
    (qRef : ℕ) (T1 T2 Xi1 Xi2 : ℚ) (M K : ℕ) (kappa : Int)
    (options : NsevSlowOptionsStruct) : Store :=
  let a1 := stAlloc st0 (List.replicate D czero)
  match np_copyto (stRead a1.1 a1.2) ((stRead a1.1 qRef).map (fun z => cadd z czero)) with
  | Except.error _ => a1.1
  | Except.ok qc =>
    let st2 := stWrite a1.1 a1.2 qc
    let db : Store × Option ℕ × Option ℕ :=
      match nsev_slow_disc_bufs options K with
      | some dv =>
        let ad := stAlloc st2 dv.1
        let ab := stAlloc ad.1 dv.2
        (ab.1, some ad.2, some ab.2)
      | none => (st2, none, none)
    let cb : Store × Option ℕ :=
      match nsev_slow_cont_buf options M with
      | some cv =>
        let ac := stAlloc db.1 cv
        (ac.1, some ac.2)
      | none => (db.1, none)
    let st3 := cb.1
    let out := engine D (stRead st3 a1.2) (T1, T2) M
      (cb.2.map (stRead st3)) (Xi1, Xi2) K (db.2.2.map (stRead st3))
      (db.2.1.map (stRead st3)) kappa options
    stWriteOpt (stWriteOpt (stWriteOpt (stWrite st3 a1.2 out.q_post)
      db.2.2 out.bs_post) db.2.1 out.ds_post) cb.2 out.cont_post

/-- fnft_nsev_inverse_wrapper.py, nsev_inverse_wrapper at the memory level:
the caller's contspec array is the store cell `csRef`; the wrapper
allocates a fresh contspec buffer and copies into it, marshals the
bound-state data into fresh buffers (or NULL when K = 0), allocates the
output buffer, and lets the engine rewrite the buffers it was passed. -/
def nsev_inverse_wrapper_st (engine : NsevInverseEngine) (st0 : Store)
    (M : ℕ) (csRef : ℕ) (Xi1 Xi2 : ℚ) (K : ℕ)
    (bound_states normconst_or_residues : Option (List CC)) (D : ℕ)
    (T1 T2 : ℚ) (kappa : Int) (options : NsevInverseOptionsStruct) : Store :=
  let a1 := stAlloc st0 (List.replicate M czero)
  match np_copyto (stRead a1.1 a1.2) (stRead a1.1 csRef) with
  | Except.error _ => a1.1
  | Except.ok csc =>
    let st2 := stWrite a1.1 a1.2 csc
    match nsev_inverse_bs_bufs K bound_states normconst_or_residues with
    | Except.error _ => st2
    | Except.ok obufs =>
      let bb : Store × Option ℕ × Option ℕ :=
        match obufs with
        | some bv =>
          let ab := stAlloc st2 bv.1
          let ad := stAlloc ab.1 bv.2
          (ad.1, some ab.2, some ad.2)
        | none => (st2, none, none)
      let aq := stAlloc bb.1 (List.replicate D czero)
      let st3 := aq.1
      let out := engine M (stRead st3 a1.2) (Xi1, Xi2) K
        (bb.2.1.map (stRead st3)) (bb.2.2.map (stRead st3)) D
        (stRead st3 aq.2) (T1, T2) kappa options
      stWriteOpt (stWriteOpt (stWrite (stWrite st3 a1.2 out.contspec_post)
        aq.2 out.q_post) bb.2.1 out.bs_post) bb.2.2 out.ds_post

/-- `st` extends `st0`: it is at least as long and agrees with `st0` on
every cell of `st0`. -/
def StoreExt (st0 st : Store) : Prop :=
  st0.length ≤ st.length ∧ ∀ r, r < st0.length → stRead st r = stRead st0 r

theorem stRead_write_ne (st : Store) (i r : ℕ) (v : List CC) (h : i ≠ r) :
    stRead (stWrite st i v) r = stRead st r := by
  simp only [stRead, stWrite, List.getD_eq_getElem?_getD]
  rw [List.getElem?_set_ne h]

theorem stRead_append_lt (st : Store) (l : List (List CC)) (r : ℕ)
    (h : r < st.length) : stRead (st ++ l) r = stRead st r := by
  simp only [stRead]
  rw [List.getD_append _ _ _ _ h]

theorem storeExt_refl (st : Store) : StoreExt st st :=
  ⟨le_refl _, fun _ _ => rfl⟩

theorem storeExt_alloc (st0 st : Store) (v : List CC) (h : StoreExt st0 st) :
    StoreExt st0 (stAlloc st v).1 := by
  refine ⟨?_, fun r hr => ?_⟩
  · simp only [stAlloc, List.length_append, List.length_singleton]
    exact le_trans h.1 (Nat.le_add_right _ _)
  · have hr' : r < st.length := lt_of_lt_of_le hr h.1
    simp only [stAlloc]
    rw [stRead_append_lt st _ r hr']
    exact h.2 r hr

theorem storeExt_alloc_ref (st0 st : Store) (v : List CC)
    (h : StoreExt st0 st) : st0.length ≤ (stAlloc st v).2 := h.1

theorem storeExt_write (st0 st : Store) (i : ℕ) (v : List CC)
    (h : StoreExt st0 st) (hi : st0.length ≤ i) :
    StoreExt st0 (stWrite st i v) := by
  refine ⟨?_, fun r hr => ?_⟩
  · simpa [stWrite] using h.1
  · rw [stRead_write_ne st i r v (by omega)]
    exact h.2 r hr

theorem storeExt_writeOpt (st0 st : Store) (i : Option ℕ) (v : List CC)
    (h : StoreExt st0 st) (hi : ∀ j, i = some j → st0.length ≤ j) :
    StoreExt st0 (stWriteOpt st i v) := by
  cases i with
  | none => exact h
  | some j => exact storeExt_write st0 st j v h (hi j rfl)

theorem except_bind_ok {α β : Type} {e : Except String α}
    {k : α → Except String β} {b : β} (h : (e >>= k) = Except.ok b) :
    ∃ a, e = Except.ok a ∧ k a = Except.ok b := by
  cases e with
  | error s => simp [Bind.bind, Except.bind] at h
  | ok a => exact ⟨a, rfl, by simpa [Bind.bind, Except.bind] using h⟩

/-- C1: a nsev_slow_wrapper call whose options carry a discspec_type or
contspec_type outside the enumerated values is NOT rejected as an
invalid-argument error: the wrapper treats any value outside {0,1,2}
exactly like 3 (skip), passes NULL buffers for the corresponding spectra,
proceeds to call the library, and returns an ordinary result assembled from
the library's answer (amended claim; the original claim is refuted by
C1_counterexample). -/
theorem C1_out_of_range_options_fall_back_to_skip (engine : NsevSlowEngine)
    (D : ℕ) (q q' : List CC) (T1 T2 Xi1 Xi2 : ℚ) (M K : ℕ) (kappa : Int)
    (options : NsevSlowOptionsStruct)
    (hd0 : options.discspec_type ≠ 0) (hd1 : options.discspec_type ≠ 1)
    (hd2 : options.discspec_type ≠ 2)
    (hc0 : options.contspec_type ≠ 0) (hc1 : options.contspec_type ≠ 1)
    (hc2 : options.contspec_type ≠ 2)
    (hq : marshal_q D q = Except.ok q')
    (hrv : (engine D q' (T1, T2) M none (Xi1, Xi2) K none none kappa
      options).rv = 0)
    (hK : (engine D q' (T1, T2) M none (Xi1, Xi2) K none none kappa
      options).K_ret = 0) :
    nsev_slow_disc_bufs options K = none ∧
    nsev_slow_cont_buf options M = none ∧
    nsev_slow_wrapper engine D q T1 T2 Xi1 Xi2 M K kappa options =
      Except.ok
        { return_value := 0
          bound_states_num := 0
          bound_states := []
          disc_norm := none
          disc_res := none
          cont_ref := none
          cont_a := none
          cont_b := none
          options := options } := by
  have hdb : nsev_slow_disc_bufs options K = none := by
    simp [nsev_slow_disc_bufs, hd0, hd1, hd2]
  have hcb : nsev_slow_cont_buf options M = none := by
    simp [nsev_slow_cont_buf, hc0, hc1, hc2]
  refine ⟨hdb, hcb, ?_⟩
  rw [nsev_slow_wrapper, hq]
  simp only [Bind.bind, Except.bind, hdb, hcb, Option.map_none']
  rw [check_return_code, if_pos hrv]
  simp only [Except.bind, hK, opt_slice, Nat.lt_irrefl, if_false]
  rw [nsev_slow_disc_out, if_neg hd0, if_neg hd1, if_neg hd2]
  simp only [Except.bind]
  rw [nsev_slow_cont_out, if_neg hc0, if_neg hc1, if_neg hc2]
  rw [hrv]

theorem cadd_czero (z : CC) : cadd z czero = z := by
  simp [cadd, czero]

theorem marshal_q_length (q : List CC) : marshal_q q.length q = Except.ok q := by
  simp [marshal_q, np_copyto, cadd_czero]

/-- A concrete library stand-in that reports success and zero bound
states. -/
def cexC1Engine : NsevSlowEngine :=
  fun _ _ _ _ _ _ _ _ _ _ _ =>
    { rv := 0, K_ret := 0, q_post := [], bs_post := [], ds_post := [],
      cont_post := [] }

/-- Options whose discspec_type and contspec_type are outside the
enumerated range {0,1,2,3}. -/
def cexC1Options : NsevSlowOptionsStruct :=
  { bound_state_filtering := 2
    bound_state_localization := 2
    niter := 10
    discspec_type := 7
    contspec_type := 7
    discretization := 11
    richardson_extrapolation_flag := 0 }

/-- C1 counterexample: with discspec_type = 7 and contspec_type = 7 (both
outside {0,1,2,3}) the call is not rejected as an invalid-argument error:
it proceeds to the library and returns an ordinary `Except.ok` result. -/
theorem C1_counterexample :
    nsev_slow_wrapper cexC1Engine 1 [czero] 0 1 (-2) 2 4 4 1 cexC1Options =
      Except.ok
        { return_value := 0
          bound_states_num := 0
          bound_states := []
          disc_norm := none
          disc_res := none
          cont_ref := none
          cont_a := none
          cont_b := none
          options := cexC1Options } := by
  have hm : marshal_q 1 [czero] = Except.ok [czero] := by
    simpa using marshal_q_length [czero]
  rw [nsev_slow_wrapper, hm]
  simp [Bind.bind, Except.bind, nsev_slow_disc_bufs, nsev_slow_cont_buf,
    cexC1Options, cexC1Engine, check_return_code, opt_slice,
    nsev_slow_disc_out, nsev_slow_cont_out]

/-- C1 witness: the amended theorem applied at a concrete input. -/
theorem C1_witness :
    nsev_slow_disc_bufs cexC1Options 4 = none ∧
    nsev_slow_cont_buf cexC1Options 4 = none ∧
    nsev_slow_wrapper cexC1Engine 1 [(czero : CC)] 0 1 (-2) 2 4 4 1
        cexC1Options =
      Except.ok
        { return_value := 0
          bound_states_num := 0
          bound_states := []
          disc_norm := none
          disc_res := none
          cont_ref := none
          cont_a := none
          cont_b := none
          options := cexC1Options } :=
  C1_out_of_range_options_fall_back_to_skip cexC1Engine 1 [czero] [czero]
    0 1 (-2) 2 4 4 1 cexC1Options (by decide) (by decide) (by decide)
    (by decide) (by decide) (by decide)
    (by simpa using marshal_q_length [czero]) rfl rfl

/-- Nsep options used for the concrete C2 instances. -/
def c2NsepOptions : NsepOptionsStruct :=
  { localization := 2
    filtering := 2
    bounding_box := ((0, 0), (0, 0))
    max_evals := 20
    discretization := 2
    normalization_flag := 1 }

/-- A concrete fnft_nsep stand-in that fails (non-zero return value) while
still reporting counts and buffer contents. -/
def c2NsepEngine : NsepEngine :=
  fun _ _ _ _ _ _ _ _ _ =>
    { rv := 1, K_ret := 1, M_ret := 1, q_post := [czero],
      main_post := [(1, 0), czero, czero, czero],
      aux_post := [(2, 0), czero] }

/-- C2 counterexample: the claim includes nsep_wrapper, but nsep_wrapper
never checks the return code: with a library call that fails (return value
1), it still hands back the sliced main and auxiliary spectrum arrays as an
ordinary successful result. -/
theorem C2_counterexample :
    nsep_wrapper c2NsepEngine 1 [czero] 0 1 1 c2NsepOptions =
      Except.ok
        { return_value := 1
          K := 1
          main := [(1, 0)]
          M := 1
          aux := [(2, 0)]
          options := c2NsepOptions } := by
  have hm : marshal_q 1 [czero] = Except.ok [czero] := by
    simpa using marshal_q_length [czero]
  rw [nsep_wrapper, hm]
  simp [Bind.bind, Except.bind, c2NsepEngine]

/-- C2: amended claim: nsev_slow_wrapper and nsev_inverse_wrapper signal a
non-success status of the underlying library call as an error instead of
returning the output arrays; nsep_wrapper does not (see
C2_counterexample). -/
theorem C2_slow_and_inverse_signal_nonzero_status
    (slowE : NsevSlowEngine) (invE : NsevInverseEngine)
    (D : ℕ) (q q' : List CC) (T1 T2 Xi1 Xi2 : ℚ) (M K : ℕ) (kappa : Int)
    (options : NsevSlowOptionsStruct)
    (Mi : ℕ) (contspec cs' : List CC) (XiA XiB : ℚ) (Ki : ℕ)
    (bsi nci : Option (List CC)) (obufs : Option (List CC × List CC))
    (Di : ℕ) (T1i T2i : ℚ) (kappai : Int)
    (opti : NsevInverseOptionsStruct)
    (hq : marshal_q D q = Except.ok q')
    (hrv1 : (slowE D q' (T1, T2) M (nsev_slow_cont_buf options M)
      (Xi1, Xi2) K ((nsev_slow_disc_bufs options K).map Prod.snd)
      ((nsev_slow_disc_bufs options K).map Prod.fst) kappa options).rv ≠ 0)
    (hcs : np_copyto (List.replicate Mi czero) contspec = Except.ok cs')
    (hbufs : nsev_inverse_bs_bufs Ki bsi nci = Except.ok obufs)
    (hrv2 : (invE Mi cs' (XiA, XiB) Ki (obufs.map Prod.fst)
      (obufs.map Prod.snd) Di (List.replicate Di czero) (T1i, T2i) kappai
      opti).rv ≠ 0) :
    nsev_slow_wrapper slowE D q T1 T2 Xi1 Xi2 M K kappa options =
      Except.error "FNFT returned a non-zero error code" ∧
    nsev_inverse_wrapper invE Mi contspec XiA XiB Ki bsi nci Di T1i T2i
        kappai opti =
      Except.error "FNFT returned a non-zero error code" := by
  constructor
  · rw [nsev_slow_wrapper, hq]
    simp only [Bind.bind, Except.bind]
    rw [check_return_code, if_neg hrv1]
  · rw [nsev_inverse_wrapper, hcs]
    simp only [Bind.bind, Except.bind]
    rw [hbufs]
    simp only [Except.bind]
    rw [check_return_code, if_neg hrv2]

/-- Nsev-slow options used for the concrete C2 witness (skip both
spectra). -/
def c2SlowOptions : NsevSlowOptionsStruct :=
  { bound_state_filtering := 2
    bound_state_localization := 2
    niter := 10
    discspec_type := 3
    contspec_type := 3
    discretization := 11
    richardson_extrapolation_flag := 0 }

/-- A concrete failing fnft_nsev_slow stand-in. -/
def c2SlowEngine : NsevSlowEngine :=
  fun _ _ _ _ _ _ _ _ _ _ _ =>
    { rv := 5, K_ret := 0, q_post := [], bs_post := [], ds_post := [],
      cont_post := [] }

/-- A concrete failing fnft_nsev_inverse stand-in. -/
def c2InvEngine : NsevInverseEngine :=
  fun _ _ _ _ _ _ _ _ _ _ _ =>
    { rv := 5, contspec_post := [], bs_post := [], ds_post := [],
      q_post := [] }

/-- Inverse options used for the concrete C2 witness. -/
def c2InvOptions : NsevInverseOptionsStruct :=
  { discretization := 4
    contspec_type := 0
    contspec_inversion_method := 0
    discspec_type := 0
    max_iter := 100
    oversampling_factor := 8 }

/-- C2 witness: the amended theorem applied at a concrete input. -/
theorem C2_witness :
    nsev_slow_wrapper c2SlowEngine 1 [(czero : CC)] 0 1 (-2) 2 4 4 1
        c2SlowOptions =
      Except.error "FNFT returned a non-zero error code" ∧
    nsev_inverse_wrapper c2InvEngine 1 [(czero : CC)] (-1) 1 0 none none 2
        0 1 1 c2InvOptions =
      Except.error "FNFT returned a non-zero error code" :=
  C2_slow_and_inverse_signal_nonzero_status c2SlowEngine c2InvEngine
    1 [czero] [czero] 0 1 (-2) 2 4 4 1 c2SlowOptions
    1 [czero] [czero] (-1) 1 0 none none none 2 0 1 1 c2InvOptions
    (by simpa using marshal_q_length [czero]) (by decide) rfl rfl (by decide)

/-- C3: nsev_inverse derives its frequency window by calling
nsev_inverse_xi_wrapper on D = len(tvec), T1 = min(tvec), T2 = max(tvec),
M = len(contspec) and the chosen discretization; a non-zero status from
that step raises before the inverse engine is consulted, and otherwise
exactly the produced (Xi1, Xi2) pair is handed to nsev_inverse_wrapper. -/
theorem C3_xi_window_derived_from_time_grid (xiE : NsevInverseXiEngine)
    (invE : NsevInverseEngine) (contspec : List CC) (tvec : List ℚ)
    (kappa dis : Int) (cst csim dst max_iter osf : Option Int)
    (T1 T2 : ℚ) (rv : Int) (xi : ℚ × ℚ)
    (hT1 : np_min tvec = Except.ok T1) (hT2 : np_max tvec = Except.ok T2)
    (hxi : nsev_inverse_xi_wrapper xiE tvec.length T1 T2 contspec.length
      dis = (rv, xi)) :
    nsev_inverse xiE invE contspec tvec kappa dis cst csim dst max_iter
        osf =
      if rv = 0 then
        nsev_inverse_wrapper invE contspec.length contspec xi.1 xi.2 0 none
          none tvec.length T1 T2 kappa
          (get_nsev_inverse_options (some dis) cst csim dst max_iter osf)
      else Except.error "nsev_inverse_xi calculation failed" := by
  rw [nsev_inverse, hT1]
  simp only [Bind.bind, Except.bind]
  rw [hT2]
  simp only [Except.bind]
  rw [hxi]
  by_cases h : rv = 0
  · simp [h]
  · simp [h]

/-- A concrete fnft_nsev_inverse_XI stand-in succeeding with window
(1, 2). -/
def c3XiEngine : NsevInverseXiEngine :=
  fun _ _ _ _ _ => { rv := 0, xi_post := (1, 2) }

/-- A concrete fnft_nsev_inverse stand-in that succeeds and leaves the
output buffer as it found it. -/
def c3InvEngine : NsevInverseEngine :=
  fun _ _ _ _ _ _ _ q _ _ _ =>
    { rv := 0, contspec_post := [], bs_post := [], ds_post := [],
      q_post := q }

/-- C3 witness: the theorem applied at a concrete input. -/
theorem C3_witness :
    nsev_inverse c3XiEngine c3InvEngine [(czero : CC)] [(0 : ℚ)] 1 4 none
        none none none none =
      if (0 : Int) = 0 then
        nsev_inverse_wrapper c3InvEngine 1 [(czero : CC)] 1 2 0 none none 1
          0 0 1 (get_nsev_inverse_options (some 4) none none none none none)
      else Except.error "nsev_inverse_xi calculation failed" :=
  C3_xi_window_derived_from_time_grid c3XiEngine c3InvEngine [czero]
    [(0 : ℚ)] 1 4 none none none none none 0 0 0 (1, 2) rfl rfl rfl

/-- C10: the convenience nsev_inverse always forwards K = 0 with no
bound-state data, so the engine receives NULL pointers for bound states and
coefficients (the discrete spectrum can never contribute through this
interface), while nsev_inverse_wrapper with K > 0 copies the caller's
bound-state and coefficient arrays into fresh buffers that are passed to
the engine. -/
theorem C10_convenience_inverse_passes_no_bound_states
    (xiE : NsevInverseXiEngine) (invE : NsevInverseEngine)
    (contspec : List CC) (tvec : List ℚ) (kappa dis : Int)
    (cst csim dst max_iter osf : Option Int) (T1 T2 : ℚ) (xi : ℚ × ℚ)
    (bsA ncA : Option (List CC)) (Kp : ℕ) (bs nc : List CC)
    (hT1 : np_min tvec = Except.ok T1) (hT2 : np_max tvec = Except.ok T2)
    (hxi : nsev_inverse_xi_wrapper xiE tvec.length T1 T2 contspec.length
      dis = (0, xi))
    (hKp : 0 < Kp) (hbs : bs.length = Kp) (hnc : nc.length = Kp) :
    nsev_inverse xiE invE contspec tvec kappa dis cst csim dst max_iter
        osf =
      nsev_inverse_wrapper invE contspec.length contspec xi.1 xi.2 0 none
        none tvec.length T1 T2 kappa
        (get_nsev_inverse_options (some dis) cst csim dst max_iter osf) ∧
    nsev_inverse_bs_bufs 0 bsA ncA = Except.ok none ∧
    nsev_inverse_bs_bufs Kp (some bs) (some nc) =
      Except.ok (some (bs, nc)) := by
  refine ⟨?_, ?_, ?_⟩
  · rw [nsev_inverse, hT1]
    simp only [Bind.bind, Except.bind]
    rw [hT2]
    simp only [Except.bind]
    rw [hxi]
    simp
  · simp [nsev_inverse_bs_bufs]
  · rw [nsev_inverse_bs_bufs, if_pos hKp]
    simp [np_copyto, hbs, hnc, Nat.pos_iff_ne_zero.mp hKp, Bind.bind,
      Except.bind]

/-- A concrete fnft_nsev_inverse_XI stand-in succeeding with window
(3, 4). -/
def c10XiEngine : NsevInverseXiEngine :=
  fun _ _ _ _ _ => { rv := 0, xi_post := (3, 4) }

/-- A concrete fnft_nsev_inverse stand-in used for the C10 witness. -/
def c10InvEngine : NsevInverseEngine :=
  fun _ _ _ _ _ _ _ q _ _ _ =>
    { rv := 0, contspec_post := [], bs_post := [], ds_post := [],
      q_post := q }

/-- C10 witness: the theorem applied at a concrete input. -/
theorem C10_witness :
    nsev_inverse c10XiEngine c10InvEngine [(czero : CC)] [(0 : ℚ)] 1 4 none
        none none none none =
      nsev_inverse_wrapper c10InvEngine 1 [(czero : CC)] 3 4 0 none none 1
        0 0 1
        (get_nsev_inverse_options (some 4) none none none none none) ∧
    nsev_inverse_bs_bufs 0 none none = Except.ok none ∧
    nsev_inverse_bs_bufs 1 (some [(czero : CC)]) (some [(czero : CC)]) =
      Except.ok (some ([(czero : CC)], [(czero : CC)])) :=
  C10_convenience_inverse_passes_no_bound_states c10XiEngine c10InvEngine
    [czero] [(0 : ℚ)] 1 4 none none none none none 0 0 (3, 4) none none 1
    [czero] [czero] rfl rfl rfl (by decide) rfl rfl

theorem nsev_slow_disc_out_fields {options : NsevSlowOptionsStruct}
    {ds : Option (List CC)} {Kn : ℕ} {r0 r1 : NsevSlowResult}
    (h : nsev_slow_disc_out options ds Kn r0 = Except.ok r1)
    (h1 : r0.disc_norm = none) (h2 : r0.disc_res = none) :
    (r1.disc_norm.isSome ↔
      options.discspec_type = 0 ∨ options.discspec_type = 2) ∧
    (r1.disc_res.isSome ↔
      options.discspec_type = 1 ∨ options.discspec_type = 2) ∧
    r1.cont_ref = r0.cont_ref ∧ r1.cont_a = r0.cont_a ∧
    r1.cont_b = r0.cont_b := by
  rw [nsev_slow_disc_out] at h
  by_cases e0 : options.discspec_type = 0
  · rw [if_pos e0] at h
    obtain ⟨v, hv, h⟩ := except_bind_ok h
    injection h with h
    subst h
    simp [e0, h1, h2]
  · rw [if_neg e0] at h
    by_cases e1 : options.discspec_type = 1
    · rw [if_pos e1] at h
      obtain ⟨v, hv, h⟩ := except_bind_ok h
      injection h with h
      subst h
      simp [e1, h1, h2]
    · rw [if_neg e1] at h
      by_cases e2 : options.discspec_type = 2
      · rw [if_pos e2] at h
        obtain ⟨v, hv, h⟩ := except_bind_ok h
        obtain ⟨w, hw, h⟩ := except_bind_ok h
        injection h with h
        subst h
        simp [e2, h1, h2]
      · rw [if_neg e2] at h
        injection h with h
        subst h
        simp [e0, e1, e2, h1, h2]

theorem nsev_slow_cont_out_fields {options : NsevSlowOptionsStruct}
    {cont : Option (List CC)} {M : ℕ} {r1 r2 : NsevSlowResult}
    (h : nsev_slow_cont_out options cont M r1 = Except.ok r2)
    (h1 : r1.cont_ref = none) (h2 : r1.cont_a = none)
    (h3 : r1.cont_b = none) :
    (r2.cont_ref.isSome ↔
      options.contspec_type = 0 ∨ options.contspec_type = 2) ∧
    (r2.cont_a.isSome ↔
      options.contspec_type = 1 ∨ options.contspec_type = 2) ∧
    (r2.cont_b.isSome ↔
      options.contspec_type = 1 ∨ options.contspec_type = 2) ∧
    r2.disc_norm = r1.disc_norm ∧ r2.disc_res = r1.disc_res := by
  rw [nsev_slow_cont_out] at h
  by_cases e0 : options.contspec_type = 0
  · rw [if_pos e0] at h
    obtain ⟨v, hv, h⟩ := except_bind_ok h
    injection h with h
    subst h
    simp [e0, h1, h2, h3]
  · rw [if_neg e0] at h
    by_cases e1 : options.contspec_type = 1
    · rw [if_pos e1] at h
      obtain ⟨v, hv, h⟩ := except_bind_ok h
      obtain ⟨w, hw, h⟩ := except_bind_ok h
      injection h with h
      subst h
      simp [e1, h1, h2, h3]
    · rw [if_neg e1] at h
      by_cases e2 : options.contspec_type = 2
      · rw [if_pos e2] at h
        obtain ⟨v, hv, h⟩ := except_bind_ok h
        obtain ⟨w, hw, h⟩ := except_bind_ok h
        obtain ⟨u, hu, h⟩ := except_bind_ok h
        injection h with h
        subst h
        simp [e2, h1, h2, h3]
      · rw [if_neg e2] at h
        injection h with h
        subst h
        simp [e0, e1, e2, h1, h2, h3]

/-- C4: the result dictionary of nsev_slow_wrapper carries a spectral
output exactly when the options request it: disc_norm is present iff
discspec_type is 0 or 2, disc_res iff 1 or 2, cont_ref iff contspec_type is
0 or 2, cont_a and cont_b iff 1 or 2; and a skipped spectrum gets a NULL
buffer (its allocation is `none` exactly when the selector is outside
{0,1,2}), so its keys are wholly absent rather than zero-filled. -/
theorem C4_result_keys_match_requested_spectra (engine : NsevSlowEngine)
    (D : ℕ) (q : List CC) (T1 T2 Xi1 Xi2 : ℚ) (M K : ℕ) (kappa : Int)
    (options : NsevSlowOptionsStruct) (r : NsevSlowResult)
    (h : nsev_slow_wrapper engine D q T1 T2 Xi1 Xi2 M K kappa options =
      Except.ok r) :
    (r.disc_norm.isSome ↔
      options.discspec_type = 0 ∨ options.discspec_type = 2) ∧
    (r.disc_res.isSome ↔
      options.discspec_type = 1 ∨ options.discspec_type = 2) ∧
    (r.cont_ref.isSome ↔
      options.contspec_type = 0 ∨ options.contspec_type = 2) ∧
    (r.cont_a.isSome ↔
      options.contspec_type = 1 ∨ options.contspec_type = 2) ∧
    (r.cont_b.isSome ↔
      options.contspec_type = 1 ∨ options.contspec_type = 2) ∧
    (nsev_slow_disc_bufs options K = none ↔
      ¬(options.discspec_type = 0 ∨ options.discspec_type = 1 ∨
        options.discspec_type = 2)) ∧
    (nsev_slow_cont_buf options M = none ↔
      ¬(options.contspec_type = 0 ∨ options.contspec_type = 1 ∨
        options.contspec_type = 2)) := by
  rw [nsev_slow_wrapper] at h
  obtain ⟨q', hm, h⟩ := except_bind_ok h
  obtain ⟨u, hck, h⟩ := except_bind_ok h
  obtain ⟨bss, hbs, h⟩ := except_bind_ok h
  obtain ⟨r1, hr1, h2⟩ := except_bind_ok h
  have hd := nsev_slow_disc_out_fields hr1 rfl rfl
  have hc := nsev_slow_cont_out_fields h2 (by rw [hd.2.2.1]) (by rw [hd.2.2.2.1]) (by rw [hd.2.2.2.2])
  refine ⟨?_, ?_, hc.1, hc.2.1, hc.2.2.1, ?_, ?_⟩
  · rw [hc.2.2.2.1]
    exact hd.1
  · rw [hc.2.2.2.2]
    exact hd.2.1
  · rw [nsev_slow_disc_bufs]
    by_cases e0 : options.discspec_type = 0
    · simp [e0]
    · by_cases e1 : options.discspec_type = 1
      · simp [e0, e1]
      · by_cases e2 : options.discspec_type = 2
        · simp [e0, e1, e2]
        · simp [e0, e1, e2]
  · rw [nsev_slow_cont_buf]
    by_cases e0 : options.contspec_type = 0
    · simp [e0]
    · by_cases e1 : options.contspec_type = 1
      · simp [e0, e1]
      · by_cases e2 : options.contspec_type = 2
        · simp [e0, e1, e2]
        · simp [e0, e1, e2]

/-- Options requesting both discrete representations and a,b for the
continuous spectrum. -/
def c4Options : NsevSlowOptionsStruct :=
  { bound_state_filtering := 2
    bound_state_localization := 2
    niter := 10
    discspec_type := 2
    contspec_type := 1
    discretization := 11
    richardson_extrapolation_flag := 0 }

/-- A concrete fnft_nsev_slow stand-in reporting one bound state with
distinct coefficient values. -/
def c4Engine : NsevSlowEngine :=
  fun _ _ _ _ _ _ _ _ _ _ _ =>
    { rv := 0, K_ret := 1, q_post := [], bs_post := [(5, 0)],
      ds_post := [(6, 0), (7, 0)], cont_post := [(8, 0), (9, 0)] }

/-- C4 witness: the theorem applied at a concrete input. -/
theorem C4_witness :
    ((some [((6 : ℚ), (0 : ℚ))]).isSome ↔
      c4Options.discspec_type = 0 ∨ c4Options.discspec_type = 2) ∧
    ((some [((7 : ℚ), (0 : ℚ))]).isSome ↔
      c4Options.discspec_type = 1 ∨ c4Options.discspec_type = 2) ∧
    ((none : Option (List CC)).isSome ↔
      c4Options.contspec_type = 0 ∨ c4Options.contspec_type = 2) ∧
    ((some [((8 : ℚ), (0 : ℚ))]).isSome ↔
      c4Options.contspec_type = 1 ∨ c4Options.contspec_type = 2) ∧
    ((some [((9 : ℚ), (0 : ℚ))]).isSome ↔
      c4Options.contspec_type = 1 ∨ c4Options.contspec_type = 2) ∧
    (nsev_slow_disc_bufs c4Options 1 = none ↔
      ¬(c4Options.discspec_type = 0 ∨ c4Options.discspec_type = 1 ∨
        c4Options.discspec_type = 2)) ∧
    (nsev_slow_cont_buf c4Options 1 = none ↔
      ¬(c4Options.contspec_type = 0 ∨ c4Options.contspec_type = 1 ∨
        c4Options.contspec_type = 2)) :=
  C4_result_keys_match_requested_spectra c4Engine 1 [czero] 0 1 (-2) 2 1 1
    1 c4Options
    { return_value := 0
      bound_states_num := 1
      bound_states := [(5, 0)]
      disc_norm := some [(6, 0)]
      disc_res := some [(7, 0)]
      cont_ref := none
      cont_a := some [(8, 0)]
      cont_b := some [(9, 0)]
      options := c4Options }
    (by
      have hm : marshal_q 1 [czero] = Except.ok [czero] := by
        simpa using marshal_q_length [czero]
      rw [nsev_slow_wrapper, hm]
      simp [Bind.bind, Except.bind, nsev_slow_disc_bufs, nsev_slow_cont_buf,
        c4Options, c4Engine, check_return_code, opt_slice,
        nsev_slow_disc_out, nsev_slow_cont_out])

theorem nsev_slow_cont_out_eval (options : NsevSlowOptionsStruct)
    (l : List CC) (M : ℕ) (r1 : NsevSlowResult) :
    nsev_slow_cont_out options (some l) M r1 =
      Except.ok
        { r1 with
          cont_ref :=
            if options.contspec_type = 0 ∨ options.contspec_type = 2 then
              some (l.take M)
            else r1.cont_ref
          cont_a :=
            if options.contspec_type = 1 then some (l.take M)
            else if options.contspec_type = 2 then
              some ((l.take (2 * M)).drop M)
            else r1.cont_a
          cont_b :=
            if options.contspec_type = 1 then some ((l.take (2 * M)).drop M)
            else if options.contspec_type = 2 then
              some ((l.take (3 * M)).drop (2 * M))
            else r1.cont_b } := by
  rw [nsev_slow_cont_out]
  by_cases e0 : options.contspec_type = 0
  · simp [e0, opt_slice, Bind.bind, Except.bind]
  · by_cases e1 : options.contspec_type = 1
    · simp [e0, e1, opt_slice, Bind.bind, Except.bind]
    · by_cases e2 : options.contspec_type = 2
      · simp [e0, e1, e2, opt_slice, Bind.bind, Except.bind]
      · simp [e0, e1, e2]

theorem nsev_slow_cont_out_eval2 (options : NsevSlowOptionsStruct)
    (l : List CC) (M : ℕ) (r1 : NsevSlowResult) :
    nsev_slow_cont_out options
        ((nsev_slow_cont_buf options M).map (fun _ => l)) M r1 =
      Except.ok
        { r1 with
          cont_ref :=
            if options.contspec_type = 0 ∨ options.contspec_type = 2 then
              some (l.take M)
            else r1.cont_ref
          cont_a :=
            if options.contspec_type = 1 then some (l.take M)
            else if options.contspec_type = 2 then
              some ((l.take (2 * M)).drop M)
            else r1.cont_a
          cont_b :=
            if options.contspec_type = 1 then some ((l.take (2 * M)).drop M)
            else if options.contspec_type = 2 then
              some ((l.take (3 * M)).drop (2 * M))
            else r1.cont_b } := by
  by_cases e0 : options.contspec_type = 0
  · rw [nsev_slow_cont_buf, if_pos e0, Option.map_some']
    exact nsev_slow_cont_out_eval options l M r1
  · by_cases e1 : options.contspec_type = 1
    · rw [nsev_slow_cont_buf, if_neg e0, if_pos e1, Option.map_some']
      exact nsev_slow_cont_out_eval options l M r1
    · by_cases e2 : options.contspec_type = 2
      · rw [nsev_slow_cont_buf, if_neg e0, if_neg e1, if_pos e2,
          Option.map_some']
        exact nsev_slow_cont_out_eval options l M r1
      · rw [nsev_slow_cont_buf, if_neg e0, if_neg e1, if_neg e2,
          Option.map_none']
        rw [nsev_slow_cont_out, if_neg e0, if_neg e1, if_neg e2]
        simp [e0, e1, e2]

/-- C5: on a successful nsev_slow_wrapper call that computes the discrete
spectrum, with an engine that respects its buffers (it reports
K_ret <= K and leaves the bound-state buffer at length K and the
coefficient buffer at its allocated length), the returned bound_states
array is the first K_ret entries of the bound-state buffer and has length
K_ret = bound_states_num, and each returned coefficient array (disc_norm,
disc_res) is the corresponding positional slice of the coefficient buffer
with that same length K_ret, so index i of a coefficient array belongs to
bound_states[i]. -/
theorem C5_bound_state_and_coefficient_lengths (engine : NsevSlowEngine)
    (D : ℕ) (q q' : List CC) (T1 T2 Xi1 Xi2 : ℚ) (M K : ℕ) (kappa : Int)
    (options : NsevSlowOptionsStruct) (out : NsevSlowEngineOut)
    (hm : marshal_q D q = Except.ok q')
    (hout : engine D q' (T1, T2) M (nsev_slow_cont_buf options M)
      (Xi1, Xi2) K ((nsev_slow_disc_bufs options K).map Prod.snd)
      ((nsev_slow_disc_bufs options K).map Prod.fst) kappa options = out)
    (hrv : out.rv = 0) (hKle : out.K_ret ≤ K)
    (hbslen : out.bs_post.length = K)
    (hds01 : options.discspec_type = 0 ∨ options.discspec_type = 1 →
      out.ds_post.length = K)
    (hds2 : options.discspec_type = 2 → out.ds_post.length = 2 * K)
    (hdsel : options.discspec_type = 0 ∨ options.discspec_type = 1 ∨
      options.discspec_type = 2) :
    nsev_slow_wrapper engine D q T1 T2 Xi1 Xi2 M K kappa options =
      Except.ok
        { return_value := out.rv
          bound_states_num := out.K_ret
          bound_states := out.bs_post.take out.K_ret
          disc_norm :=
            if options.discspec_type = 0 ∨ options.discspec_type = 2 then
              some (out.ds_post.take out.K_ret)
            else none
          disc_res :=
            if options.discspec_type = 1 then
              some (out.ds_post.take out.K_ret)
            else if options.discspec_type = 2 then
              some ((out.ds_post.take (2 * out.K_ret)).drop out.K_ret)
            else none
          cont_ref :=
            if options.contspec_type = 0 ∨ options.contspec_type = 2 then
              some (out.cont_post.take M)
            else none
          cont_a :=
            if options.contspec_type = 1 then some (out.cont_post.take M)
            else if options.contspec_type = 2 then
              some ((out.cont_post.take (2 * M)).drop M)
            else none
          cont_b :=
            if options.contspec_type = 1 then
              some ((out.cont_post.take (2 * M)).drop M)
            else if options.contspec_type = 2 then
              some ((out.cont_post.take (3 * M)).drop (2 * M))
            else none
          options := options } ∧
    (out.bs_post.take out.K_ret).length = out.K_ret ∧
    (out.ds_post.take out.K_ret).length = out.K_ret ∧
    (options.discspec_type = 2 →
      ((out.ds_post.take (2 * out.K_ret)).drop out.K_ret).length =
        out.K_ret) := by
  have hcont := nsev_slow_cont_out_eval2 options out.cont_post M
  refine ⟨?_, ?_, ?_, ?_⟩
  · rw [nsev_slow_wrapper, hm]
    simp only [Bind.bind, Except.bind]
    rw [hout, check_return_code, if_pos hrv]
    rcases hdsel with e0 | e1 | e2
    · simp [nsev_slow_disc_bufs, nsev_slow_disc_out, opt_slice, Bind.bind,
        Except.bind, e0, hcont]
    · have e0 : options.discspec_type ≠ 0 := by rw [e1]; decide
      simp [nsev_slow_disc_bufs, nsev_slow_disc_out, opt_slice, Bind.bind,
        Except.bind, e0, e1, hcont]
    · have e0 : options.discspec_type ≠ 0 := by rw [e2]; decide
      have e1 : options.discspec_type ≠ 1 := by rw [e2]; decide
      simp [nsev_slow_disc_bufs, nsev_slow_disc_out, opt_slice, Bind.bind,
        Except.bind, e0, e1, e2, hcont]
  · simp only [List.length_take, hbslen]
    omega
  · rcases hdsel with e | e | e
    · have := hds01 (Or.inl e)
      simp only [List.length_take, this]
      omega
    · have := hds01 (Or.inr e)
      simp only [List.length_take, this]
      omega
    · have := hds2 e
      simp only [List.length_take, this]
      omega
  · intro e2
    have := hds2 e2
    simp only [List.length_drop, List.length_take, this]
    omega

/-- Options requesting norming constants and residues (discspec_type 2)
and the reflection coefficient (contspec_type 0). -/
def c5Options : NsevSlowOptionsStruct :=
  { bound_state_filtering := 2
    bound_state_localization := 2
    niter := 10
    discspec_type := 2
    contspec_type := 0
    discretization := 11
    richardson_extrapolation_flag := 0 }

/-- Concrete engine output: one bound state found (K_ret = 1) inside
buffers allocated for K = 2. -/
def c5Out : NsevSlowEngineOut :=
  { rv := 0
    K_ret := 1
    q_post := []
    bs_post := [(1, 1), (0, 0)]
    ds_post := [(3, 0), (4, 0), (5, 0), (6, 0)]
    cont_post := [(9, 0)] }

/-- A concrete fnft_nsev_slow stand-in returning `c5Out`. -/
def c5Engine : NsevSlowEngine :=
  fun _ _ _ _ _ _ _ _ _ _ _ => c5Out

/-- C5 witness: the theorem applied at a concrete input. -/
theorem C5_witness :
    nsev_slow_wrapper c5Engine 1 [(czero : CC)] 0 1 (-2) 2 1 2 1
        c5Options =
      Except.ok
        { return_value := 0
          bound_states_num := 1
          bound_states := [((1 : ℚ), (1 : ℚ))]
          disc_norm := some [((3 : ℚ), (0 : ℚ))]
          disc_res := some [((4 : ℚ), (0 : ℚ))]
          cont_ref := some [((9 : ℚ), (0 : ℚ))]
          cont_a := none
          cont_b := none
          options := c5Options } ∧
    (c5Out.bs_post.take c5Out.K_ret).length = c5Out.K_ret ∧
    (c5Out.ds_post.take c5Out.K_ret).length = c5Out.K_ret ∧
    (c5Options.discspec_type = 2 →
      ((c5Out.ds_post.take (2 * c5Out.K_ret)).drop c5Out.K_ret).length =
        c5Out.K_ret) :=
  C5_bound_state_and_coefficient_lengths c5Engine 1 [czero] [czero] 0 1
    (-2) 2 1 2 1 c5Options c5Out (by simpa using marshal_q_length [czero])
    rfl rfl (by decide) (by decide) (by decide) (by decide) (by decide)

/-- C6: nsep_wrapper hands the library a main-spectrum buffer of exactly
4*D entries and an auxiliary buffer of exactly 2*D entries (visible in the
engine call below), and returns as 'main' and 'aux' the first K_ret and
M_ret entries of the post-call buffers, so with an engine that keeps the
buffer lengths and reports K_ret <= 4*D and M_ret <= 2*D the returned
spectra have lengths K_ret and M_ret. -/
theorem C6_nsep_allocation_and_counts (engine : NsepEngine) (D : ℕ)
    (q q' : List CC) (T1 T2 : ℚ) (kappa : Int)
    (options : NsepOptionsStruct) (out : NsepEngineOut)
    (hm : marshal_q D q = Except.ok q')
    (hout : engine D q' (T1, T2) (4 * D) (List.replicate (4 * D) czero)
      (2 * D) (List.replicate (2 * D) czero) kappa options = out)
    (hmain : out.main_post.length = 4 * D)
    (haux : out.aux_post.length = 2 * D)
    (hK : out.K_ret ≤ 4 * D) (hM : out.M_ret ≤ 2 * D) :
    nsep_wrapper engine D q T1 T2 kappa options =
      Except.ok
        { return_value := out.rv
          K := out.K_ret
          main := out.main_post.take out.K_ret
          M := out.M_ret
          aux := out.aux_post.take out.M_ret
          options := options } ∧
    (out.main_post.take out.K_ret).length = out.K_ret ∧
    (out.aux_post.take out.M_ret).length = out.M_ret := by
  refine ⟨?_, ?_, ?_⟩
  · rw [nsep_wrapper, hm]
    simp only [Bind.bind, Except.bind]
    rw [hout]
    simp
  · simp only [List.length_take, hmain]
    omega
  · simp only [List.length_take, haux]
    omega

/-- Nsep options used for the concrete C6 witness. -/
def c6Options : NsepOptionsStruct :=
  { localization := 2
    filtering := 2
    bounding_box := ((0, 0), (0, 0))
    max_evals := 20
    discretization := 2
    normalization_flag := 1 }

/-- Concrete engine output: two main-spectrum points and one auxiliary
point inside buffers allocated for D = 1. -/
def c6Out : NsepEngineOut :=
  { rv := 0
    K_ret := 2
    M_ret := 1
    q_post := []
    main_post := [(1, 0), (2, 0), (0, 0), (0, 0)]
    aux_post := [(3, 0), (0, 0)] }

/-- A concrete fnft_nsep stand-in returning `c6Out`. -/
def c6Engine : NsepEngine :=
  fun _ _ _ _ _ _ _ _ _ => c6Out

/-- C6 witness: the theorem applied at a concrete input. -/
theorem C6_witness :
    nsep_wrapper c6Engine 1 [(czero : CC)] 0 1 1 c6Options =
      Except.ok
        { return_value := 0
          K := 2
          main := [((1 : ℚ), (0 : ℚ)), ((2 : ℚ), (0 : ℚ))]
          M := 1
          aux := [((3 : ℚ), (0 : ℚ))]
          options := c6Options } ∧
    (c6Out.main_post.take c6Out.K_ret).length = c6Out.K_ret ∧
    (c6Out.aux_post.take c6Out.M_ret).length = c6Out.M_ret :=
  C6_nsep_allocation_and_counts c6Engine 1 [czero] [czero] 0 1 1 c6Options
    c6Out (by simpa using marshal_q_length [czero]) rfl (by decide)
    (by decide) (by decide) (by decide)

/-- C9: nsev_slow reads its time vector only through min(tvec) and
max(tvec) (the sample count comes from len(q)), so two calls differing
only in time vectors with equal minimum and maximum agree exactly;
nsev_inverse reads its time vector only through len(tvec), min(tvec) and
max(tvec). -/
theorem C9_tvec_used_only_through_min_max_len (engine : NsevSlowEngine)
    (xiE : NsevInverseXiEngine) (invE : NsevInverseEngine)
    (q contspec : List CC) (tvec1 tvec2 tvec3 tvec4 : List ℚ)
    (Xi1 Xi2 : ℚ) (M K : ℕ) (kappa : Int)
    (bsf bsl niter dst cst dis ref : Option Int)
    (kappa2 dis2 : Int) (cst2 csim2 dst2 max_iter2 osf2 : Option Int)
    (hmin : np_min tvec1 = np_min tvec2)
    (hmax : np_max tvec1 = np_max tvec2)
    (hlen : tvec3.length = tvec4.length)
    (hmin2 : np_min tvec3 = np_min tvec4)
    (hmax2 : np_max tvec3 = np_max tvec4) :
    nsev_slow engine q tvec1 Xi1 Xi2 M K kappa bsf bsl niter dst cst dis
        ref =
      nsev_slow engine q tvec2 Xi1 Xi2 M K kappa bsf bsl niter dst cst dis
        ref ∧
    nsev_inverse xiE invE contspec tvec3 kappa2 dis2 cst2 csim2 dst2
        max_iter2 osf2 =
      nsev_inverse xiE invE contspec tvec4 kappa2 dis2 cst2 csim2 dst2
        max_iter2 osf2 := by
  constructor
  · simp only [nsev_slow]
    rw [hmin, hmax]
  · simp only [nsev_inverse]
    rw [hlen, hmin2, hmax2]

/-- A concrete fnft_nsev_slow stand-in for the C9 witness. -/
def c9SlowEngine : NsevSlowEngine :=
  fun _ _ _ _ _ _ _ _ _ _ _ =>
    { rv := 0, K_ret := 0, q_post := [], bs_post := [], ds_post := [],
      cont_post := [] }

/-- A concrete fnft_nsev_inverse_XI stand-in for the C9 witness. -/
def c9XiEngine : NsevInverseXiEngine :=
  fun _ _ _ _ _ => { rv := 0, xi_post := (0, 1) }

/-- A concrete fnft_nsev_inverse stand-in for the C9 witness. -/
def c9InvEngine : NsevInverseEngine :=
  fun _ _ _ _ _ _ _ q _ _ _ =>
    { rv := 0, contspec_post := [], bs_post := [], ds_post := [],
      q_post := q }

/-- C9 witness: the theorem applied to the time vectors [0,1] and [1,0],
which share minimum, maximum and length. -/
theorem C9_witness :
    nsev_slow c9SlowEngine [(czero : CC)] [(0 : ℚ), 1] (-2) 2 4 4 1 none
        none none none none none none =
      nsev_slow c9SlowEngine [(czero : CC)] [(1 : ℚ), 0] (-2) 2 4 4 1 none
        none none none none none none ∧
    nsev_inverse c9XiEngine c9InvEngine [(czero : CC)] [(0 : ℚ), 1] 1 4
        none none none none none =
      nsev_inverse c9XiEngine c9InvEngine [(czero : CC)] [(1 : ℚ), 0] 1 4
        none none none none none :=
  C9_tvec_used_only_through_min_max_len c9SlowEngine c9XiEngine
    c9InvEngine [czero] [czero] [(0 : ℚ), 1] [(1 : ℚ), 0] [(0 : ℚ), 1]
    [(1 : ℚ), 0] (-2) 2 4 4 1 none none none none none none none 1 4 none
    none none none none (by simp [np_min, min_comm])
    (by simp [np_max, max_comm]) rfl (by simp [np_min, min_comm])
    (by simp [np_max, max_comm])

theorem nsep_wrapper_st_ext (engine : NsepEngine) (st : Store) (D : ℕ)
    (qRef : ℕ) (T1 T2 : ℚ) (kappa : Int) (options : NsepOptionsStruct) :
    StoreExt st (nsep_wrapper_st engine st D qRef T1 T2 kappa options) := by
  rw [nsep_wrapper_st]
  dsimp only
  split
  · exact storeExt_alloc _ _ _ (storeExt_refl st)
  · next qc heq =>
    have e1 : StoreExt st (stAlloc st (List.replicate D czero)).1 :=
      storeExt_alloc _ _ _ (storeExt_refl st)
    have r1 : st.length ≤ (stAlloc st (List.replicate D czero)).2 :=
      storeExt_alloc_ref _ _ _ (storeExt_refl st)
    have e2 := storeExt_write _ _ _ qc e1 r1
    have e3 := storeExt_alloc _ _ (List.replicate (4 * D) czero) e2
    have r2 := storeExt_alloc_ref _ _ (List.replicate (4 * D) czero) e2
    have e4 := storeExt_alloc _ _ (List.replicate (2 * D) czero) e3
    have r3 := storeExt_alloc_ref _ _ (List.replicate (2 * D) czero) e3
    exact storeExt_write _ _ _ _
      (storeExt_write _ _ _ _ (storeExt_write _ _ _ _ e4 r1) r2) r3

theorem storeExt_writeOpt_some (st0 st : Store) (i : ℕ) (v : List CC)
    (h : StoreExt st0 st) (hi : st0.length ≤ i) :
    StoreExt st0 (stWriteOpt st (some i) v) :=
  storeExt_write st0 st i v h hi

theorem nsev_slow_wrapper_st_ext (engine : NsevSlowEngine) (st : Store)
    (D qRef : ℕ) (T1 T2 Xi1 Xi2 : ℚ) (M K : ℕ) (kappa : Int)
    (options : NsevSlowOptionsStruct) :
    StoreExt st
      (nsev_slow_wrapper_st engine st D qRef T1 T2 Xi1 Xi2 M K kappa
        options) := by
  rw [nsev_slow_wrapper_st]
  dsimp only
  split
  · exact storeExt_alloc _ _ _ (storeExt_refl st)
  · next qc heq =>
    have e1 : StoreExt st (stAlloc st (List.replicate D czero)).1 :=
      storeExt_alloc _ _ _ (storeExt_refl st)
    have r1 : st.length ≤ (stAlloc st (List.replicate D czero)).2 :=
      storeExt_alloc_ref _ _ _ (storeExt_refl st)
    have e2 := storeExt_write _ _ _ qc e1 r1
    cases hdb : nsev_slow_disc_bufs options K with
    | some dv =>
      have e3 := storeExt_alloc _ _ dv.1 e2
      have r3 := storeExt_alloc_ref _ _ dv.1 e2
      have e4 := storeExt_alloc _ _ dv.2 e3
      have r4 := storeExt_alloc_ref _ _ dv.2 e3
      cases hcb : nsev_slow_cont_buf options M with
      | some cv =>
        have e5 := storeExt_alloc _ _ cv e4
        have r5 := storeExt_alloc_ref _ _ cv e4
        dsimp only
        exact storeExt_writeOpt_some _ _ _ _
          (storeExt_writeOpt_some _ _ _ _
            (storeExt_writeOpt_some _ _ _ _
              (storeExt_write _ _ _ _ e5 r1) r4) r3) r5
      | none =>
        dsimp only
        exact storeExt_writeOpt_some _ _ _ _
          (storeExt_writeOpt_some _ _ _ _
            (storeExt_write _ _ _ _ e4 r1) r4) r3
    | none =>
      cases hcb : nsev_slow_cont_buf options M with
      | some cv =>
        have e3 := storeExt_alloc _ _ cv e2
        have r3 := storeExt_alloc_ref _ _ cv e2
        dsimp only
        exact storeExt_writeOpt_some _ _ _ _
          (storeExt_write _ _ _ _ e3 r1) r3
      | none =>
        dsimp only
        exact storeExt_write _ _ _ _ e2 r1

theorem nsev_inverse_wrapper_st_ext (engine : NsevInverseEngine)
    (st : Store) (M csRef : ℕ) (Xi1 Xi2 : ℚ) (K : ℕ)
    (bound_states normconst_or_residues : Option (List CC)) (D : ℕ)
    (T1 T2 : ℚ) (kappa : Int) (options : NsevInverseOptionsStruct) :
    StoreExt st
      (nsev_inverse_wrapper_st engine st M csRef Xi1 Xi2 K bound_states
        normconst_or_residues D T1 T2 kappa options) := by
  rw [nsev_inverse_wrapper_st]
  dsimp only
  split
  · exact storeExt_alloc _ _ _ (storeExt_refl st)
  · next csc heq =>
    have e1 : StoreExt st (stAlloc st (List.replicate M czero)).1 :=
      storeExt_alloc _ _ _ (storeExt_refl st)
    have r1 : st.length ≤ (stAlloc st (List.replicate M czero)).2 :=
      storeExt_alloc_ref _ _ _ (storeExt_refl st)
    have e2 := storeExt_write _ _ _ csc e1 r1
    cases hob : nsev_inverse_bs_bufs K bound_states normconst_or_residues with
    | error s =>
      dsimp only
      exact e2
    | ok obufs =>
      cases obufs with
      | some bv =>
        have e3 := storeExt_alloc _ _ bv.1 e2
        have r3 := storeExt_alloc_ref _ _ bv.1 e2
        have e4 := storeExt_alloc _ _ bv.2 e3
        have r4 := storeExt_alloc_ref _ _ bv.2 e3
        have e5 := storeExt_alloc _ _ (List.replicate D czero) e4
        have r5 := storeExt_alloc_ref _ _ (List.replicate D czero) e4
        dsimp only
        exact storeExt_writeOpt_some _ _ _ _
          (storeExt_writeOpt_some _ _ _ _
            (storeExt_write _ _ _ _
              (storeExt_write _ _ _ _ e5 r1) r5) r3) r4
      | none =>
        have e3 := storeExt_alloc _ _ (List.replicate D czero) e2
        have r3 := storeExt_alloc_ref _ _ (List.replicate D czero) e2
        dsimp only
        exact storeExt_write _ _ _ _
          (storeExt_write _ _ _ _ e3 r1) r3

/-- C7: at the memory level, each wrapper copies the caller's samples (and,
for the inverse, the continuous spectrum) into freshly allocated buffers
before invoking the engine, and all post-call writes target those fresh
buffers, so the caller's array cell is unchanged when the call returns —
for every engine behaviour, every option record, and every outcome of the
marshalling step. -/
theorem C7_caller_arrays_unchanged (nsepE : NsepEngine)
    (slowE : NsevSlowEngine) (invE : NsevInverseEngine)
    (st1 st2 st3 : Store) (qRef1 qRef2 csRef : ℕ) (D1 : ℕ) (T1a T2a : ℚ)
    (kappa1 : Int) (opt1 : NsepOptionsStruct) (D2 M2 K2 : ℕ)
    (T1b T2b Xi1b Xi2b : ℚ) (kappa2 : Int) (opt2 : NsevSlowOptionsStruct)
    (M3 K3 D3 : ℕ) (Xi1c Xi2c T1c T2c : ℚ) (bs3 nc3 : Option (List CC))
    (kappa3 : Int) (opt3 : NsevInverseOptionsStruct)
    (h1 : qRef1 < st1.length) (h2 : qRef2 < st2.length)
    (h3 : csRef < st3.length) :
    stRead (nsep_wrapper_st nsepE st1 D1 qRef1 T1a T2a kappa1 opt1)
        qRef1 =
      stRead st1 qRef1 ∧
    stRead (nsev_slow_wrapper_st slowE st2 D2 qRef2 T1b T2b Xi1b Xi2b M2
        K2 kappa2 opt2) qRef2 =
      stRead st2 qRef2 ∧
    stRead (nsev_inverse_wrapper_st invE st3 M3 csRef Xi1c Xi2c K3 bs3
        nc3 D3 T1c T2c kappa3 opt3) csRef =
      stRead st3 csRef :=
  ⟨(nsep_wrapper_st_ext nsepE st1 D1 qRef1 T1a T2a kappa1 opt1).2 qRef1 h1,
   (nsev_slow_wrapper_st_ext slowE st2 D2 qRef2 T1b T2b Xi1b Xi2b M2 K2
     kappa2 opt2).2 qRef2 h2,
   (nsev_inverse_wrapper_st_ext invE st3 M3 csRef Xi1c Xi2c K3 bs3 nc3 D3
     T1c T2c kappa3 opt3).2 csRef h3⟩

/-- Nsep options for the C7 witness. -/
def c7NsepOptions : NsepOptionsStruct :=
  { localization := 2
    filtering := 2
    bounding_box := ((0, 0), (0, 0))
    max_evals := 20
    discretization := 2
    normalization_flag := 1 }

/-- Nsev-slow options for the C7 witness. -/
def c7SlowOptions : NsevSlowOptionsStruct :=
  { bound_state_filtering := 2
    bound_state_localization := 2
    niter := 10
    discspec_type := 0
    contspec_type := 0
    discretization := 11
    richardson_extrapolation_flag := 0 }

/-- Inverse options for the C7 witness. -/
def c7InvOptions : NsevInverseOptionsStruct :=
  { discretization := 4
    contspec_type := 0
    contspec_inversion_method := 0
    discspec_type := 0
    max_iter := 100
    oversampling_factor := 8 }

/-- A concrete fnft_nsep stand-in that scribbles over every buffer it is
handed. -/
def c7NsepEngine : NsepEngine :=
  fun _ _ _ _ _ _ _ _ _ =>
    { rv := 0, K_ret := 1, M_ret := 1, q_post := [(7, 7)],
      main_post := [(7, 7)], aux_post := [(7, 7)] }

/-- A concrete fnft_nsev_slow stand-in that scribbles over every buffer it
is handed. -/
def c7SlowEngine : NsevSlowEngine :=
  fun _ _ _ _ _ _ _ _ _ _ _ =>
    { rv := 0, K_ret := 1, q_post := [(7, 7)], bs_post := [(7, 7)],
      ds_post := [(7, 7)], cont_post := [(7, 7)] }

/-- A concrete fnft_nsev_inverse stand-in that scribbles over every buffer
it is handed. -/
def c7InvEngine : NsevInverseEngine :=
  fun _ _ _ _ _ _ _ _ _ _ _ =>
    { rv := 0, contspec_post := [(7, 7)], bs_post := [(7, 7)],
      ds_post := [(7, 7)], q_post := [(7, 7)] }

/-- C7 witness: the theorem applied to one-cell stores holding the
caller's array. -/
theorem C7_witness :
    stRead (nsep_wrapper_st c7NsepEngine [[((1 : ℚ), (2 : ℚ))]] 1 0 0 1 1
        c7NsepOptions) 0 =
      stRead [[((1 : ℚ), (2 : ℚ))]] 0 ∧
    stRead (nsev_slow_wrapper_st c7SlowEngine [[((1 : ℚ), (2 : ℚ))]] 1 0 0
        1 (-2) 2 4 4 1 c7SlowOptions) 0 =
      stRead [[((1 : ℚ), (2 : ℚ))]] 0 ∧
    stRead (nsev_inverse_wrapper_st c7InvEngine [[((1 : ℚ), (2 : ℚ))]] 1 0
        (-1) 1 0 none none 2 0 1 1 c7InvOptions) 0 =
      stRead [[((1 : ℚ), (2 : ℚ))]] 0 :=
  C7_caller_arrays_unchanged c7NsepEngine c7SlowEngine c7InvEngine
    [[((1 : ℚ), (2 : ℚ))]] [[((1 : ℚ), (2 : ℚ))]] [[((1 : ℚ), (2 : ℚ))]]
    0 0 0 1 0 1 1 c7NsepOptions 1 4 4 0 1 (-2) 2 1 c7SlowOptions 1 0 2
    (-1) 1 0 1 none none 1 c7InvOptions (by decide) (by decide)
    (by decide)
